import Mathlib

/-!
Verification of the PactGuard document-analysis pipeline.

Text is embedded as `List Char` (the repository operates on Python `str`
values character by character: substring tests, `split`, `strip`,
`lower`).  Every definition below is translated from the repository
sources; the authoritative variants are

* `app/services/assembly_line.py` — the second `PactGuardAssemblyLine`
  class in the file (the one whose module-level instance survives),
* `app/services/agents/portia_tools.py` — the first tool variant,
* `free_ai_analysis.py` / `demo_analysis.py` — the two-tier fallback.

Wall-clock measurements, UUID generation and the current datetime are
nondeterministic inputs of the Python code; they are modelled as explicit
oracle parameters (`dur`, `totalStr`, `now`) or a fixed placeholder
(`uuidPlaceholder`), since no verified property depends on their values.
-/

/-- Shorthand: the character list of a string literal. -/
def chars (s : String) : List Char := s.data

/-- Lowercasing, as Python `str.lower` on the ASCII texts involved. -/
def lowerL (l : List Char) : List Char := l.map Char.toLower

/-- Does `kw` match the front of `l`?  (Helper for substring search.) -/
def leadMatch : List Char → List Char → Bool
  | [], _ => true
  | _ :: _, [] => false
  | a :: as, b :: bs => a == b && leadMatch as bs

/-- Python's `kw in l` substring containment test. -/
def containsSub (kw : List Char) : List Char → Bool
  | [] => kw.isEmpty
  | c :: rest => leadMatch kw (c :: rest) || containsSub kw rest

/-- Python `str.split(sep)`, fuel-indexed so that it is structural
recursion (the fuel is always instantiated with the text length). -/
def splitSeqF (sep : List Char) : Nat → List Char → List (List Char)
  | _, [] => [[]]
  | 0, l => [l]
  | n + 1, c :: cs =>
    if sep ≠ [] ∧ leadMatch sep (c :: cs) = true then
      [] :: splitSeqF sep n ((c :: cs).drop sep.length)
    else
      match splitSeqF sep n cs with
      | [] => [[c]]
      | p :: ps => (c :: p) :: ps

/-- Python `str.split(sep)` for a non-empty separator. -/
def splitSeq (sep l : List Char) : List (List Char) := splitSeqF sep l.length l

/-- Joining pieces with a separator (inverse of `splitSeq`). -/
def joinSep (sep : List Char) : List (List Char) → List Char
  | [] => []
  | [p] => p
  | p :: q :: ps => p ++ sep ++ joinSep sep (q :: ps)

/-- Python `str.split()` (no argument): split on whitespace runs,
dropping empty words.  `cur` accumulates the current word reversed. -/
def splitWsAux (cur : List Char) : List Char → List (List Char)
  | [] => if cur = [] then [] else [cur.reverse]
  | c :: cs =>
    if c.isWhitespace then
      if cur = [] then splitWsAux [] cs else cur.reverse :: splitWsAux [] cs
    else
      splitWsAux (c :: cur) cs

/-- Python `str.split()` with no argument. -/
def splitWs (l : List Char) : List (List Char) := splitWsAux [] l

/-- Python `str.strip()`: remove leading and trailing whitespace. -/
def stripL (l : List Char) : List Char :=
  ((l.dropWhile Char.isWhitespace).reverse.dropWhile Char.isWhitespace).reverse

/-- Decimal rendering of a natural number, as Python `str(n)`. -/
def natDecimal (n : Nat) : List Char := (Nat.repr n).data

-- ### Data model (app/models/schemas.py)

/-- `DocumentType` enum from `schemas.py`. -/
inductive DocumentType
  | termsOfService
  | privacyPolicy
  | employmentContract
  | softwareLicense
  | unknown
deriving DecidableEq

/-- `Sentiment` enum from `schemas.py`. -/
inductive Sentiment
  | positive
  | neutral
  | negative
deriving DecidableEq

/-- `RiskLevel` enum from `schemas.py`: note it has no Critical member. -/
inductive RiskLevel
  | low
  | medium
  | high
deriving DecidableEq

/-- `ProcessingStatus` enum from `schemas.py`. -/
inductive ProcessingStatus
  | completed
  | processing
  | pending
deriving DecidableEq

/-- The `.value` string of a `DocumentType` member. -/
def docTypeValue : DocumentType → List Char
  | .termsOfService => chars "Terms of Service"
  | .privacyPolicy => chars "Privacy Policy"
  | .employmentContract => chars "Employment Contract"
  | .softwareLicense => chars "Software License"
  | .unknown => chars "Unknown"

/-- `Summary` model from `schemas.py`. -/
structure Summary where
  title : List Char
  documentType : DocumentType
  sentiment : Sentiment
  keyPoints : List (List Char)
  riskLevel : RiskLevel
  readingTime : List Char
  lastUpdated : List Char
deriving DecidableEq

/-- `Obligation` model from `schemas.py`. -/
structure Obligation where
  id : List Char
  category : List Char
  clause : List Char
  explanation : List Char
  severity : RiskLevel
  impact : List Char
deriving DecidableEq

/-- `RightAndDataUsage` model from `schemas.py`. -/
structure RightAndDataUsage where
  id : List Char
  category : List Char
  clause : List Char
  explanation : List Char
  severity : RiskLevel
  userProtection : List Char
deriving DecidableEq

/-- `RedFlag` model from `schemas.py` (whose `severity` field is the
pydantic literal `RiskLevel.HIGH`; here it is a plain `RiskLevel` so the
pipeline theorems establish, rather than assume, that it is High). -/
structure RedFlag where
  id : List Char
  category : List Char
  clause : List Char
  explanation : List Char
  severity : RiskLevel
  recommendation : List Char
  legalImplications : List Char
deriving DecidableEq

/-- `ProcessingStep` model from `schemas.py`; confidence as a rational. -/
structure ProcessingStep where
  agent : List Char
  status : ProcessingStatus
  duration : List Char
  confidence : ℚ
deriving DecidableEq

/-- `AIAssemblyLine` model from `schemas.py`. -/
structure AIAssemblyLine where
  processing_steps : List ProcessingStep
  total_processing_time : List Char
deriving DecidableEq

/-- `AnalysisResult` model from `schemas.py`. -/
structure AnalysisResult where
  summary : Summary
  obligations : List Obligation
  rights_and_data_usage : List RightAndDataUsage
  red_flags : List RedFlag
  ai_assembly_line : AIAssemblyLine
deriving DecidableEq

/-- An extracted clause: the dict
`{"id", "text", "section", "type"}` built by the clause-extraction
stages (the `section` key is spelled `sectionName` because `section` is
a Lean keyword). -/
structure Clause where
  id : List Char
  text : List Char
  sectionName : List Char
  type : List Char
deriving DecidableEq

/-- Stand-in for `str(uuid.uuid4())`; no verified property depends on
the generated identifier. -/
def uuidPlaceholder : List Char := chars "00000000-0000-0000-0000-000000000000"

-- ### Stage 1: Document Ingestion (assembly_line.py, `_document_ingestion`)

/-- `_document_ingestion`: strip, collapse whitespace runs to single
spaces, and count the whitespace-delimited words. -/
def documentIngestion (text : List Char) : List Char × Nat :=
  let normalized := joinSep (chars " ") (splitWs (stripL text))
  (normalized, (splitWs normalized).length)

-- ### Stage 2: Legal Classification (assembly_line.py, `_legal_classification`)

/-- Terms-of-service keyword group (assembly_line.py line 223). -/
def tosKws : List (List Char) :=
  [chars "terms of service", chars "terms of use", chars "user agreement"]

/-- Privacy-policy keyword group (assembly_line.py line 226). -/
def privacyKws : List (List Char) :=
  [chars "privacy policy", chars "data collection", chars "personal information"]

/-- Employment-contract keyword group (assembly_line.py line 229). -/
def employmentKws : List (List Char) :=
  [chars "employment agreement", chars "employment contract"]

/-- Software-license keyword group (assembly_line.py line 232). -/
def licenseKws : List (List Char) :=
  [chars "software license", chars "mit license", chars "gpl", chars "apache"]

/-- Section list for Terms of Service. -/
def tosSections : List (List Char) :=
  [chars "User Obligations", chars "Service Terms", chars "Liability",
   chars "Termination", chars "Dispute Resolution"]

/-- Section list for Privacy Policy. -/
def privacySections : List (List Char) :=
  [chars "Data Collection", chars "Data Usage", chars "Data Sharing",
   chars "User Rights", chars "Cookies"]

/-- Section list for Employment Contract. -/
def employmentSections : List (List Char) :=
  [chars "Job Duties", chars "Compensation", chars "Benefits",
   chars "Termination", chars "Confidentiality"]

/-- Section list for Software License. -/
def licenseSections : List (List Char) :=
  [chars "License Grant", chars "Restrictions", chars "Attribution",
   chars "Warranty", chars "Liability"]

/-- Fallback section list for Unknown documents. -/
def genericSections : List (List Char) :=
  [chars "General Terms", chars "Conditions", chars "Rights", chars "Obligations"]

/-- `_legal_classification`: nested keyword tests in source order
(terms of service, privacy policy, employment, license, else Unknown),
each test a case-insensitive substring search. -/
def legalClassification (text : List Char) : DocumentType × List (List Char) :=
  let tl := lowerL text
  if tosKws.any (fun k => containsSub k tl) then
    (DocumentType.termsOfService, tosSections)
  else if privacyKws.any (fun k => containsSub k tl) then
    (DocumentType.privacyPolicy, privacySections)
  else if employmentKws.any (fun k => containsSub k tl) then
    (DocumentType.employmentContract, employmentSections)
  else if licenseKws.any (fun k => containsSub k tl) then
    (DocumentType.softwareLicense, licenseSections)
  else
    (DocumentType.unknown, genericSections)

/-- Modelled from the spec: "case-insensitive substring search against
ordered keyword groups, evaluated in fixed priority order ... first
matching group wins", kept as a literal first-match scan for the
refinement theorem of C5. -/
def docGroups : List (List (List Char) × DocumentType) :=
  [(tosKws, DocumentType.termsOfService),
   (privacyKws, DocumentType.privacyPolicy),
   (employmentKws, DocumentType.employmentContract),
   (licenseKws, DocumentType.softwareLicense)]

/-- Modelled from the spec (see `docGroups`): the first group with a
case-insensitive substring match decides, else Unknown. -/
def classifyBySpec (text : List Char) : DocumentType :=
  match docGroups.find? (fun g => g.1.any (fun k => containsSub k (lowerL text))) with
  | some g => g.2
  | none => DocumentType.unknown

-- ### Stage 3: Clause Extraction (assembly_line.py, `_clause_extraction`)

/-- Risk keyword set (assembly_line.py line 247). -/
def riskKws : List (List Char) :=
  [chars "liable", chars "responsibility", chars "terminate", chars "breach",
   chars "penalty", chars "damages", chars "lawsuit"]

/-- Data-usage keyword set (assembly_line.py line 248). -/
def dataKws : List (List Char) :=
  [chars "collect", chars "store", chars "share", chars "process",
   chars "personal data", chars "information", chars "cookies"]

/-- Obligation keyword set (assembly_line.py line 249). -/
def oblKws : List (List Char) :=
  [chars "must", chars "shall", chars "required", chars "agree",
   chars "consent", chars "responsible", chars "comply"]

/-- Clause tagging: first match in the fixed order risk, data_usage,
obligation; otherwise general. -/
def tagType (tl : List Char) : List Char :=
  if riskKws.any (fun k => containsSub k tl) then chars "risk"
  else if dataKws.any (fun k => containsSub k tl) then chars "data_usage"
  else if oblKws.any (fun k => containsSub k tl) then chars "obligation"
  else chars "general"

/-- `_classify_clause_section` (assembly_line.py lines 274-279): first
section one of whose lowercased words occurs in the clause text. -/
def classifyClauseSection (textLower : List Char) (sections : List (List Char)) :
    List Char :=
  match sections.find? (fun sec => (splitWs sec).any
      (fun w => containsSub (lowerL w) textLower)) with
  | some sec => sec
  | none => chars "General Terms"

/-- `_clause_extraction` (assembly_line.py lines 241-272): split on
". ", keep the first 15 sentences, skip sentences whose stripped length
is below 20, tag and assign a section to each survivor. -/
def clauseExtraction (text : List Char) (sections : List (List Char)) :
    List Clause :=
  ((splitSeq (chars ". ") text).take 15).filterMap (fun sentence =>
    if (stripL sentence).length < 20 then none
    else some
      { id := uuidPlaceholder
        text := stripL sentence
        sectionName := classifyClauseSection (lowerL sentence) sections
        type := tagType (lowerL sentence) })

-- ### Stage 4: Risk Analysis (assembly_line.py, `_risk_analysis`)

/-- The clause excerpt computed at assembly_line.py line 288:
`clause["text"][:200] + ("..." if len(clause["text"]) > 200 else "")`. -/
def excerpt (t : List Char) : List Char :=
  t.take 200 ++ (if 200 < t.length then chars "..." else [])

/-- The `Obligation` built for an obligation-typed clause. -/
def oblOfClause (cl : Clause) : Option Obligation :=
  if cl.type = chars "obligation" then
    some
      { id := cl.id
        category := cl.sectionName
        clause := excerpt cl.text
        explanation := chars "This clause creates a binding obligation that you must follow."
        severity := RiskLevel.medium
        impact := chars "You must comply with this requirement to avoid potential consequences." }
  else none

/-- The `RightAndDataUsage` built for a data_usage-typed clause. -/
def rightsOfClause (cl : Clause) : Option RightAndDataUsage :=
  if cl.type = chars "data_usage" then
    some
      { id := cl.id
        category := cl.sectionName
        clause := excerpt cl.text
        explanation := chars "This clause relates to how your personal data is handled."
        severity := RiskLevel.medium
        userProtection := chars "Understanding this helps protect your privacy rights." }
  else none

/-- The `RedFlag` built for a risk-typed clause. -/
def redFlagOfClause (cl : Clause) : Option RedFlag :=
  if cl.type = chars "risk" then
    some
      { id := cl.id
        category := cl.sectionName
        clause := excerpt cl.text
        explanation := chars "This clause presents significant legal risks and should be carefully reviewed."
        severity := RiskLevel.high
        recommendation := chars "Consider seeking legal advice before agreeing to this clause."
        legalImplications := chars "This clause may limit your rights or expose you to liability." }
  else none

/-- Output of the risk-analysis stage (the 4-tuple returned by
`_risk_analysis`, with named components). -/
structure RiskOut where
  obligations : List Obligation
  rights : List RightAndDataUsage
  redFlags : List RedFlag
  overallRisk : RiskLevel
deriving DecidableEq

/-- `_risk_analysis` (assembly_line.py lines 281-329): partition typed
clauses into the three finding lists (one pass over the clauses with
disjoint branches, rendered as one filterMap per branch), then derive
the overall risk: any red flag gives High; more than three obligations
or more than three rights gives Medium; otherwise Low. -/
def riskAnalysis (clauses : List Clause) : RiskOut :=
  let obligations := clauses.filterMap oblOfClause
  let rights := clauses.filterMap rightsOfClause
  let redFlags := clauses.filterMap redFlagOfClause
  let overall :=
    if redFlags ≠ [] then RiskLevel.high
    else if 3 < obligations.length ∨ 3 < rights.length then RiskLevel.medium
    else RiskLevel.low
  ⟨obligations, rights, redFlags, overall⟩

-- ### Stage 5: Plain English Translation (assembly_line.py)

/-- `_generate_key_points` lookup table keyed by document type. -/
def keyPointsMap (dt : DocumentType) : List (List Char) :=
  match dt with
  | .privacyPolicy =>
    [chars "Explains how your personal data is collected and used",
     chars "Describes data sharing practices with third parties",
     chars "Outlines your rights regarding your personal information",
     chars "Details cookie usage and tracking technologies"]
  | .termsOfService =>
    [chars "Defines your responsibilities and obligations as a user",
     chars "Explains service limitations and restrictions",
     chars "Describes conditions for account termination",
     chars "Outlines dispute resolution procedures"]
  | .employmentContract =>
    [chars "Defines job duties and responsibilities",
     chars "Outlines compensation and benefits",
     chars "Describes termination conditions",
     chars "Includes confidentiality and non-compete clauses"]
  | .softwareLicense =>
    [chars "Grants specific usage rights for the software",
     chars "Lists restrictions on software use and distribution",
     chars "Defines warranty and support limitations",
     chars "Outlines attribution requirements"]
  | .unknown =>
    [chars "Contains important legal obligations and terms",
     chars "Includes provisions that may affect your rights",
     chars "Requires careful review before acceptance",
     chars "May have significant legal implications"]

/-- `_plain_english_translation` (assembly_line.py lines 331-356); the
datetime stamp is the oracle parameter `now`. -/
def plainEnglishTranslation (dt : DocumentType) (risk : RiskLevel)
    (wordCount : Nat) (now : List Char) : Summary :=
  let readingTime := natDecimal (max 1 (wordCount / 200)) ++ chars " min read"
  let sentiment :=
    if risk = RiskLevel.high then Sentiment.negative
    else if risk = RiskLevel.low then Sentiment.positive
    else Sentiment.neutral
  { title := chars "Legal Document Analysis: " ++ docTypeValue dt
    documentType := dt
    sentiment := sentiment
    keyPoints := keyPointsMap dt
    riskLevel := risk
    readingTime := readingTime
    lastUpdated := now }

-- ### Orchestrator (assembly_line.py, `analyze_document`)

/-- One entry of the processing-step log. -/
def step (agent d : List Char) (conf : ℚ) : ProcessingStep :=
  ⟨agent, ProcessingStatus.completed, d, conf⟩

/-- `analyze_document` of the effective (second) `PactGuardAssemblyLine`
class.  `dur` and `totalStr` are the wall-clock measurement oracles,
`now` the datetime oracle, and `st` the incoming value of the instance
attribute `self.processing_steps` — the source never resets it, it only
appends, so it is threaded through explicitly.  The `AIAssemblyLine`
snapshot is taken before the sixth step is appended, exactly as in the
source.  Returns the `AnalysisResult` and the final attribute value. -/
def analyzeDocument (dur : Nat → List Char) (totalStr now : List Char)
    (st : List ProcessingStep) (text : List Char) :
    AnalysisResult × List ProcessingStep :=
  let norm := (documentIngestion text).1
  let wordCount := (documentIngestion text).2
  let s1 := st ++ [step (chars "Document Ingestion") (dur 0) (95/100)]
  let docType := (legalClassification norm).1
  let sections := (legalClassification norm).2
  let s2 := s1 ++ [step (chars "Legal Classification") (dur 1) (92/100)]
  let clauses := clauseExtraction norm sections
  let s3 := s2 ++ [step (chars "Clause Extraction") (dur 2) (89/100)]
  let risk := riskAnalysis clauses
  let s4 := s3 ++ [step (chars "Risk Analysis") (dur 3) (87/100)]
  let summary := plainEnglishTranslation docType risk.overallRisk wordCount now
  let s5 := s4 ++ [step (chars "Plain English Translation") (dur 4) (91/100)]
  let ai : AIAssemblyLine := ⟨s5, totalStr⟩
  let s6 := s5 ++ [step (chars "Report Generation") (dur 5) (93/100)]
  (⟨summary, risk.obligations, risk.rights, risk.redFlags, ai⟩, s6)

/-- The six steps one `analyze_document` run appends, given its
duration oracle. -/
def runSteps (dur : Nat → List Char) : List ProcessingStep :=
  [step (chars "Document Ingestion") (dur 0) (95/100),
   step (chars "Legal Classification") (dur 1) (92/100),
   step (chars "Clause Extraction") (dur 2) (89/100),
   step (chars "Risk Analysis") (dur 3) (87/100),
   step (chars "Plain English Translation") (dur 4) (91/100),
   step (chars "Report Generation") (dur 5) (93/100)]

-- ### Portia tool path (portia_tools.py, first tool variant)

/-- Risk keyword set of `ClauseExtractionTool` (portia_tools.py line 145). -/
def pRiskKws : List (List Char) :=
  [chars "liable", chars "responsibility", chars "terminate", chars "breach",
   chars "penalty"]

/-- Data-usage keyword set of `ClauseExtractionTool` (line 146). -/
def pDataKws : List (List Char) :=
  [chars "collect", chars "store", chars "share", chars "process",
   chars "personal data"]

/-- Obligation keyword set of `ClauseExtractionTool` (line 147). -/
def pOblKws : List (List Char) :=
  [chars "must", chars "shall", chars "required", chars "agree to",
   chars "consent"]

/-- Clause tagging of `ClauseExtractionTool`: dict iteration order
risk, data_usage, obligation with break on first match. -/
def portiaTagType (tl : List Char) : List Char :=
  if pRiskKws.any (fun k => containsSub k tl) then chars "risk"
  else if pDataKws.any (fun k => containsSub k tl) then chars "data_usage"
  else if pOblKws.any (fun k => containsSub k tl) then chars "obligation"
  else chars "general"

/-- `_classify_clause_section` of `ClauseExtractionTool` (lines
166-170): words of the lowercased section. -/
def portiaClassifyClauseSection (textLower : List Char)
    (sections : List (List Char)) : List Char :=
  match sections.find? (fun sec => (splitWs (lowerL sec)).any
      (fun w => containsSub w textLower)) with
  | some sec => sec
  | none => chars "General Terms"

/-- `_extract_clauses` of `ClauseExtractionTool` (portia_tools.py lines
141-164): split on ". ", build a clause for every sentence (no minimum
length filter on this path), and truncate the list to 20. -/
def extractClauses (text : List Char) (sections : List (List Char)) :
    List Clause :=
  ((splitSeq (chars ". ") text).map (fun sentence =>
    { id := uuidPlaceholder
      text := stripL sentence
      sectionName := portiaClassifyClauseSection (lowerL sentence) sections
      type := portiaTagType (lowerL sentence) })).take 20

/-- The clause excerpt of `RiskAnalysisTool._create_item`
(portia_tools.py line 208): `clause["text"][:200]`, with no ellipsis. -/
def createItemClause (cl : Clause) : List Char := cl.text.take 200

/-- `_create_item` for item_type "obligation". -/
def pOblOfClause (cl : Clause) : Option Obligation :=
  if cl.type = chars "obligation" then
    some
      { id := cl.id
        category := cl.sectionName
        clause := createItemClause cl
        explanation := chars "This clause defines a key obligation."
        severity := RiskLevel.medium
        impact := chars "User must comply with this." }
  else none

/-- `_create_item` for item_type "data_usage". -/
def pRightsOfClause (cl : Clause) : Option RightAndDataUsage :=
  if cl.type = chars "data_usage" then
    some
      { id := cl.id
        category := cl.sectionName
        clause := createItemClause cl
        explanation := chars "This clause defines a key data usage."
        severity := RiskLevel.medium
        userProtection := chars "Affects user data and privacy." }
  else none

/-- `_create_item` for item_type "red_flag" (the severity is updated to
High by the `item.update` call). -/
def pRedFlagOfClause (cl : Clause) : Option RedFlag :=
  if cl.type = chars "risk" then
    some
      { id := cl.id
        category := cl.sectionName
        clause := createItemClause cl
        explanation := chars "This clause defines a key red flag."
        severity := RiskLevel.high
        recommendation := chars "Review this clause carefully."
        legalImplications := chars "Potential for significant legal consequences." }
  else none

/-- `RiskAnalysisTool._calculate_overall_risk` (portia_tools.py lines
224-229), translated branch for branch: the truthiness test, then the
`len(red_flags) > 0` test (unreachable), then Low. -/
def calculateOverallRisk (redFlags : List RedFlag) : RiskLevel :=
  if redFlags ≠ [] then RiskLevel.high
  else if 0 < redFlags.length then RiskLevel.medium
  else RiskLevel.low

/-- `RiskAnalysisTool.run` (portia_tools.py lines 181-202): partition
the clauses, then compute the overall risk from the red flags alone. -/
def portiaRiskAnalysisRun (clauses : List Clause) : RiskOut :=
  let obligations := clauses.filterMap pOblOfClause
  let rights := clauses.filterMap pRightsOfClause
  let redFlags := clauses.filterMap pRedFlagOfClause
  ⟨obligations, rights, redFlags, calculateOverallRisk redFlags⟩

-- ### Report Generation tool (portia_tools.py, `ReportGenerationTool.run`)

/-- Python `step.duration.replace("s", "")`: every `s` removed. -/
def stripS (l : List Char) : List Char := l.filter (fun c => c != 's')

/-- Digit run to a natural number; `none` on empty or non-digit input. -/
def digitsToNat? (l : List Char) : Option Nat :=
  if l = [] then none
  else l.foldl (fun acc c =>
    match acc with
    | none => none
    | some n => if c.isDigit then some (n * 10 + (c.toNat - 48)) else none)
    (some 0)

/-- Python `float(...)` on the nonnegative decimal forms produced by
%-formatting of durations ("1", "1.", ".5", "0.53"); anything else is a
parse failure (a raised ValueError in Python). -/
def parseDec (l : List Char) : Option ℚ :=
  match splitSeq (chars ".") l with
  | [a] => (digitsToNat? a).map (fun n => (n : ℚ))
  | [a, b] =>
    if a = [] ∧ b = [] then none
    else
      match (if a = [] then some 0 else digitsToNat? a),
            (if b = [] then some 0 else digitsToNat? b) with
      | some ia, some ib => some ((ia : ℚ) + (ib : ℚ) / ((10 : ℚ) ^ b.length))
      | _, _ => none
  | _ => none

/-- The generator-sum
`sum(float(step.duration.replace("s", "")) for step in processing_steps)`;
`none` when any duration fails to parse (the Python exception). -/
def sumDurations : List ProcessingStep → Option ℚ
  | [] => some 0
  | s :: rest =>
    match parseDec (stripS s.duration), sumDurations rest with
    | some q, some r => some (q + r)
    | _, _ => none

/-- Python `f"{q:.1f}"` on a nonnegative rational: the value rounded to
one decimal place.  (CPython rounds the underlying binary double to
nearest, ties to even; on the non-tie values arising here that agrees
with this round-half-up model.) -/
def fmtTenth (q : ℚ) : List Char :=
  let n : Nat := (Int.floor (q * 10 + 1/2)).toNat
  natDecimal (n / 10) ++ chars "." ++ natDecimal (n % 10)

/-- `ReportGenerationResult` model from `schemas.py`. -/
structure ReportGenerationResult where
  final_report : AnalysisResult
  confidence : ℚ
deriving DecidableEq

/-- `ReportGenerationTool.run` (portia_tools.py lines 290-313): sum the
parsed step durations, format the total as `f"{total:.1f}s"`, and
assemble the final report; a duration that fails to parse raises, which
the tool surfaces as a `ToolHardError` (the `error` branch). -/
def reportGenerationRun (summary : Summary) (obligations : List Obligation)
    (rights : List RightAndDataUsage) (redFlags : List RedFlag)
    (steps : List ProcessingStep) :
    Except (List Char) ReportGenerationResult :=
  match sumDurations steps with
  | none => Except.error (chars "Report generation failed")
  | some total =>
    Except.ok
      ⟨⟨summary, obligations, rights, redFlags,
        ⟨steps, fmtTenth total ++ chars "s"⟩⟩, 93/100⟩

-- ### Two-tier fallback (demo_analysis.py and free_ai_analysis.py)

/-- The `ReportItem` shape produced by `demo_analysis.py` and by the
re-structuring step of `free_ai_analysis.py`. -/
structure ReportItem where
  title : List Char
  originalClause : List Char
  explanation : List Char
  severity : List Char
deriving DecidableEq

/-- The `summary` object of the `PactGuardAnalysisReport` JSON shape. -/
structure PactSummary where
  documentType : List Char
  overallRiskLevel : List Char
  keyConcerns : List (List Char)
  recommendation : List Char
deriving DecidableEq

/-- The `PactGuardAnalysisReport` JSON shape shared by the demo
generator and the re-structured provider output (serialization via
`json.dumps` is plumbing and is not modelled). -/
structure PactReport where
  summary : PactSummary
  redFlags : List ReportItem
  obligations : List ReportItem
  rightsAndDataUsage : List ReportItem
deriving DecidableEq

/-- An apostrophe character, for source strings that contain one. -/
def apos : List Char := [Char.ofNat 39]

/-- `generate_main_concerns` (demo_analysis.py lines 51-68). -/
def generateMainConcerns (text docType : List Char) : List (List Char) :=
  let tl := lowerL text
  let c1 := if containsSub (chars "arbitration") tl then
    [chars "Mandatory arbitration waives right to jury trial."] else []
  let c2 := if containsSub (chars "indemnify") tl then
    [chars "Broad indemnification increases user financial risk."] else []
  let c3 := if containsSub (chars "data") tl && containsSub (chars "third") tl then
    [chars "Extensive data sharing with third parties."] else []
  let c4 := if containsSub (chars "terminate") tl &&
      (containsSub (chars "any time") tl || containsSub (chars "without notice") tl) then
    [chars "Service can be terminated without adequate notice."] else []
  let concerns := c1 ++ c2 ++ c3 ++ c4
  (if concerns = [] then
    [chars "Standard " ++ lowerL docType ++ chars " concerns apply."]
   else concerns).take 3

/-- `generate_recommendations` (demo_analysis.py lines 71-82). -/
def generateRecommendations (docType severityLower : List Char) :
    List (List Char) :=
  let recs := [chars "Read the entire document carefully before accepting.",
               chars "Consider consulting a legal professional for high-risk clauses.",
               chars "Keep records of all communications and transactions."]
  let recs := if severityLower = chars "high" ∨ severityLower = chars "critical"
    then chars "HIGH RISK: Strongly consider alternatives to this service." :: recs
    else recs
  recs.take 4

/-- `generate_red_flags` (demo_analysis.py lines 85-106). -/
def generateRedFlags (text : List Char) : List ReportItem :=
  let tl := lowerL text
  (if containsSub (chars "arbitration") tl then
    [⟨chars "Binding Arbitration Clause",
      chars "The document states that all disputes must be resolved through binding arbitration.",
      chars "This clause significantly limits your legal options, preventing you from suing in a traditional court or participating in class-action lawsuits.",
      chars "High"⟩]
   else []) ++
  (if containsSub (chars "indemnify") tl then
    [⟨chars "Broad Indemnification",
      chars "The document includes a clause requiring you to indemnify the company.",
      chars "You could be held financially responsible for the company" ++ apos ++
        chars "s legal fees if they are sued due to your actions, even if you are not at fault.",
      chars "High"⟩]
   else []) 

/-- `generate_obligations` (demo_analysis.py lines 109-116). -/
def generateObligations : List ReportItem :=
  [⟨chars "Compliance with Laws",
    chars "You agree to comply with all applicable laws and regulations when using the service.",
    chars "You are responsible for ensuring your use of the service does not violate any local, state, or federal laws.",
    chars "Medium"⟩]

/-- `generate_rights_and_data_usage` (demo_analysis.py lines 119-126). -/
def generateRightsAndDataUsage : List ReportItem :=
  [⟨chars "Data Access and Deletion",
    chars "The privacy policy outlines your right to access and request deletion of your personal data.",
    chars "You have the right to know what information is stored about you and to request its removal, which is a key data privacy right.",
    chars "Low"⟩]

/-- `generate_demo_analysis` (demo_analysis.py lines 5-48): the
second-tier deterministic generator.  `random.randint(lo, hi)` is
modelled by `lo + rand % (hi - lo + 1)` with the draw `rand` passed in;
the `iso_timestamp` argument is accepted but, as in the source, does
not appear in the produced report. -/
def generateDemoAnalysis (text ts : List Char) (rand : Nat) : PactReport :=
  let docLower := lowerL text
  let pick :=
    if containsSub (chars "privacy") docLower then
      (chars "Privacy Policy", 70, 90)
    else if containsSub (chars "terms") docLower ||
        containsSub (chars "service") docLower then
      (chars "Terms of Service", 60, 85)
    else if containsSub (chars "employment") docLower ||
        containsSub (chars "contract") docLower then
      (chars "Employment Contract", 40, 70)
    else
      (chars "Unknown", 50, 80)
  let docType := pick.1
  let riskScore := pick.2.1 + rand % (pick.2.2 - pick.2.1 + 1)
  let severity :=
    if 80 ≤ riskScore then chars "Critical"
    else if 65 ≤ riskScore then chars "High"
    else if 45 ≤ riskScore then chars "Medium"
    else chars "Low"
  { summary :=
      { documentType := docType
        overallRiskLevel := severity
        keyConcerns := generateMainConcerns text docType
        recommendation :=
          joinSep (chars " ") (generateRecommendations docType (lowerL severity)) }
    redFlags := generateRedFlags text
    obligations := generateObligations
    rightsAndDataUsage := generateRightsAndDataUsage }

/-- The `result[start_idx:end_idx]` JSON extraction of
`free_ai_analysis.py` lines 112-115: the segment from the first brace
to the last closing brace, `none` when either brace is absent (the
"No JSON found in response" branch). -/
def extractJsonSegment (l : List Char) : Option (List Char) :=
  match l.findIdx? (fun c => c == Char.ofNat 123),
        l.reverse.findIdx? (fun c => c == Char.ofNat 125) with
  | some i, some j => some ((l.drop i).take (l.length - j - i))
  | _, _ => none

/-- `free_legal_analysis` (free_ai_analysis.py lines 17-156).  The
external call is an `Except` oracle (`error` covers a missing token, a
network failure, a timeout — any raised exception); `jsonValid` models
whether `json.loads` accepts the extracted segment; `restructure`
models the inner re-mapping `try` block (`none` is its raised
`ValueError`).  Every failure is caught by the outer handler, which
returns `generate_demo_analysis`; the function is total — no error
value can reach the caller. -/
def freeLegalAnalysis (jsonValid : List Char → Bool)
    (restructure : List Char → Option PactReport)
    (provider : Except (List Char) (List Char))
    (text ts : List Char) (rand : Nat) : PactReport :=
  match provider with
  | Except.error _ => generateDemoAnalysis text ts rand
  | Except.ok result =>
    match extractJsonSegment result with
    | none => generateDemoAnalysis text ts rand
    | some js =>
      if jsonValid js then
        match restructure js with
        | some report => report
        | none => generateDemoAnalysis text ts rand
      else generateDemoAnalysis text ts rand

-- ### Concrete inputs used by the closed theorems below

/-- All clause-tagging keywords of the rule-based path. -/
def tagKeywords : List (List Char) := riskKws ++ dataKws ++ oblKws

/-- Tagging keywords plus the document-type keywords. -/
def allKeywords : List (List Char) :=
  tagKeywords ++ (tosKws ++ privacyKws ++ employmentKws ++ licenseKws)

/-- A fixed duration oracle (every measured duration "0.00s"). -/
def d0 : Nat → List Char := fun _ => chars "0.00s"

/-- Raw input whose lowercased text contains no keyword of any group,
but whose whitespace-collapsed normalization contains "personal data". -/
def c4Text : List Char := chars "we use your personal  data for advertising here"

/-- A keyword-free input text. -/
def c4WitnessText : List Char :=
  chars "the quick brown fox jumped over a lazy dog today"

/-- A risk-typed clause whose text has 201 characters. -/
def longRiskClause : Clause :=
  ⟨chars "cid-1", List.replicate 201 'a', chars "General Terms", chars "risk"⟩

/-- A minimal summary for instantiating the report-generation tool. -/
def smallSummary : Summary :=
  ⟨chars "t", DocumentType.unknown, Sentiment.neutral, [], RiskLevel.low,
   chars "1 min read", chars "2025-01-01T00:00:00"⟩

/-- One processing step with duration "2s". -/
def oneStep2s : List ProcessingStep :=
  [⟨chars "Document Ingestion", ProcessingStatus.completed, chars "2s", 95/100⟩]

/-- Two processing steps of 0.03 seconds each. -/
def twoSteps003 : List ProcessingStep :=
  [⟨chars "Document Ingestion", ProcessingStatus.completed, chars "0.03s", 95/100⟩,
   ⟨chars "Legal Classification", ProcessingStatus.completed, chars "0.03s", 92/100⟩]

/-- First invocation of `analyze_document` on the fresh singleton. -/
def c9FirstRun : AnalysisResult × List ProcessingStep :=
  analyzeDocument d0 (chars "0.0s") (chars "2025-01-01T00:00:00") [] (chars "x")

/-- A successive invocation, starting from the processing-step list the
first invocation left in the singleton. -/
def c9SecondRun : AnalysisResult × List ProcessingStep :=
  analyzeDocument d0 (chars "0.0s") (chars "2025-01-01T00:00:00")
    c9FirstRun.2 (chars "x")

-- ### Helper lemmas: substring search and splitting

/-- A front match survives extending the searched list on the right. -/
theorem leadMatch_append (kw l l' : List Char) (h : leadMatch kw l = true) :
    leadMatch kw (l ++ l') = true := by
  induction kw generalizing l with
  | nil => rfl
  | cons a as ih =>
    cases l with
    | nil => cases h
    | cons b bs =>
      simp only [leadMatch, Bool.and_eq_true, beq_iff_eq] at h
      simp only [List.cons_append, leadMatch, Bool.and_eq_true, beq_iff_eq]
      exact ⟨h.1, ih bs h.2⟩

/-- A front match lets the separator be peeled off the list. -/
theorem leadMatch_reconstruct (sep l : List Char)
    (h : leadMatch sep l = true) : sep ++ l.drop sep.length = l := by
  induction sep generalizing l with
  | nil => simp
  | cons a as ih =>
    cases l with
    | nil => cases h
    | cons b bs =>
      simp only [leadMatch, Bool.and_eq_true, beq_iff_eq] at h
      obtain ⟨rfl, h2⟩ := h
      simpa using ih bs h2

/-- The empty keyword is contained in every list. -/
theorem containsSub_nil_kw (l : List Char) : containsSub [] l = true := by
  cases l <;> simp [containsSub, leadMatch]

/-- Containment survives extending the searched list on the right. -/
theorem containsSub_append_right (kw l l' : List Char)
    (h : containsSub kw l = true) : containsSub kw (l ++ l') = true := by
  induction l with
  | nil =>
    have hkw : kw = [] := by
      simpa [containsSub, List.isEmpty_iff] using h
    subst hkw
    exact containsSub_nil_kw _
  | cons c cs ih =>
    simp only [containsSub, Bool.or_eq_true] at h
    rcases h with h | h
    · simp only [List.cons_append, containsSub, Bool.or_eq_true]
      exact Or.inl (by simpa using leadMatch_append kw (c :: cs) l' h)
    · simp only [List.cons_append, containsSub, Bool.or_eq_true]
      exact Or.inr (ih h)

/-- Containment survives extending the searched list on the left. -/
theorem containsSub_append_left (kw l' l : List Char)
    (h : containsSub kw l = true) : containsSub kw (l' ++ l) = true := by
  induction l' with
  | nil => simpa
  | cons c cs ih =>
    simp only [List.cons_append, containsSub, Bool.or_eq_true]
    exact Or.inr ih

/-- Containment in a middle segment gives containment in the whole. -/
theorem containsSub_of_middle (kw u m v : List Char)
    (h : containsSub kw m = true) : containsSub kw (u ++ (m ++ v)) = true :=
  containsSub_append_left _ _ _ (containsSub_append_right _ _ _ h)

/-- `splitSeqF` on the empty list. -/
theorem splitSeqF_nil (sep : List Char) (n : Nat) :
    splitSeqF sep n [] = [[]] := by
  cases n <;> rfl

/-- `splitSeqF` with zero fuel on a non-empty list. -/
theorem splitSeqF_zero_cons (sep : List Char) (c : Char) (cs : List Char) :
    splitSeqF sep 0 (c :: cs) = [c :: cs] := rfl

/-- The unfolding equation of `splitSeqF` at a successor fuel. -/
theorem splitSeqF_succ (sep : List Char) (n : Nat) (c : Char) (cs : List Char) :
    splitSeqF sep (n + 1) (c :: cs) =
      if sep ≠ [] ∧ leadMatch sep (c :: cs) = true then
        [] :: splitSeqF sep n ((c :: cs).drop sep.length)
      else
        match splitSeqF sep n cs with
        | [] => [[c]]
        | p :: ps => (c :: p) :: ps := rfl

/-- Splitting never produces the empty list of pieces. -/
theorem splitSeqF_ne_nil (sep : List Char) :
    ∀ (n : Nat) (l : List Char), splitSeqF sep n l ≠ [] := by
  intro n
  induction n with
  | zero =>
    intro l
    cases l with
    | nil => simp [splitSeqF_nil]
    | cons c cs => simp [splitSeqF_zero_cons]
  | succ n ih =>
    intro l
    cases l with
    | nil => simp [splitSeqF_nil]
    | cons c cs =>
      rw [splitSeqF_succ]
      split
      · exact List.cons_ne_nil _ _
      · split
        · exact List.cons_ne_nil _ _
        · exact List.cons_ne_nil _ _

/-- Joining the pieces of a (sufficiently fuelled) split restores the
original list. -/
theorem splitSeqF_join (sep : List Char) :
    ∀ (n : Nat) (l : List Char), l.length ≤ n →
      joinSep sep (splitSeqF sep n l) = l := by
  intro n
  induction n with
  | zero =>
    intro l hl
    have : l = [] := List.eq_nil_of_length_eq_zero (Nat.le_zero.mp hl)
    subst this
    rw [splitSeqF_nil]
    rfl
  | succ n ih =>
    intro l hl
    cases l with
    | nil => rw [splitSeqF_nil]; rfl
    | cons c cs =>
      rw [splitSeqF_succ]
      by_cases hcond : sep ≠ [] ∧ leadMatch sep (c :: cs) = true
      · rw [if_pos hcond]
        obtain ⟨q, qs, hqs⟩ : ∃ q qs,
            splitSeqF sep n ((c :: cs).drop sep.length) = q :: qs := by
          cases hx : splitSeqF sep n ((c :: cs).drop sep.length) with
          | nil => exact absurd hx (splitSeqF_ne_nil sep n _)
          | cons q qs => exact ⟨q, qs, rfl⟩
        have hlen : ((c :: cs).drop sep.length).length ≤ n := by
          have hsep : 0 < sep.length := List.length_pos.mpr hcond.1
          simp only [List.length_drop, List.length_cons] at *
          omega
        have hjoin := ih _ hlen
        rw [hqs] at hjoin ⊢
        show sep ++ joinSep sep (q :: qs) = c :: cs
        rw [hjoin]
        exact leadMatch_reconstruct sep (c :: cs) hcond.2
      · rw [if_neg hcond]
        obtain ⟨p, ps, hps⟩ : ∃ p ps, splitSeqF sep n cs = p :: ps := by
          cases hx : splitSeqF sep n cs with
          | nil => exact absurd hx (splitSeqF_ne_nil sep n _)
          | cons p ps => exact ⟨p, ps, rfl⟩
        have hjoin := ih cs (by simpa using Nat.le_of_succ_le_succ (by simpa using hl))
        rw [hps] at hjoin ⊢
        cases ps with
        | nil =>
          show c :: p = c :: cs
          simp only [joinSep] at hjoin
          rw [hjoin]
        | cons r rs =>
          show (c :: p) ++ sep ++ joinSep sep (r :: rs) = c :: cs
          simp only [joinSep] at hjoin
          simp [List.cons_append, List.append_assoc, hjoin]

/-- Every piece occurs inside the joined list. -/
theorem mem_joinSep_decomp (sep : List Char) :
    ∀ (ps : List (List Char)) (p : List Char), p ∈ ps →
      ∃ u v, joinSep sep ps = u ++ (p ++ v) := by
  intro ps
  induction ps with
  | nil => intro p hp; cases hp
  | cons q qs ih =>
    intro p hp
    cases qs with
    | nil =>
      have hpq : p = q := by simpa using hp
      exact ⟨[], [], by simp [joinSep, hpq]⟩
    | cons r rs =>
      rcases List.mem_cons.mp hp with h | h
      · exact ⟨[], sep ++ joinSep sep (r :: rs), by simp [joinSep, h, List.append_assoc]⟩
      · obtain ⟨u, v, huv⟩ := ih p h
        exact ⟨q ++ sep ++ u, v, by simp [joinSep, huv, List.append_assoc]⟩

/-- Every sentence produced by `splitSeq` is a segment of the text. -/
theorem mem_splitSeq_decomp (sep l p : List Char)
    (hp : p ∈ splitSeq sep l) : ∃ u v, l = u ++ (p ++ v) := by
  obtain ⟨u, v, huv⟩ := mem_joinSep_decomp sep _ p hp
  refine ⟨u, v, ?_⟩
  rw [← splitSeqF_join sep l.length l le_rfl]
  exact huv

/-- A keyword absent from the lowercased text is absent from the
lowercase of each of its sentences. -/
theorem containsSub_sentence (kw sentence text : List Char)
    (hmem : sentence ∈ splitSeq (chars ". ") text)
    (h : containsSub kw (lowerL text) = false) :
    containsSub kw (lowerL sentence) = false := by
  cases hx : containsSub kw (lowerL sentence) with
  | false => rfl
  | true =>
    exfalso
    obtain ⟨u, v, huv⟩ := mem_splitSeq_decomp _ _ _ hmem
    have : containsSub kw (lowerL text) = true := by
      rw [huv]
      simp only [lowerL, List.map_append]
      exact containsSub_of_middle kw _ _ _ hx
    rw [this] at h
    cases h

-- ### Helper lemmas: the rule-based pipeline

/-- When no tagging keyword occurs, a clause is tagged "general". -/
theorem tagType_general (tl : List Char)
    (h : ∀ kw ∈ tagKeywords, containsSub kw tl = false) :
    tagType tl = chars "general" := by
  have hmk : ∀ (ks : List (List Char)), (∀ kw ∈ ks, kw ∈ tagKeywords) →
      ks.any (fun k => containsSub k tl) = false := by
    intro ks hks
    rw [List.any_eq_false]
    intro k hk
    simp [h k (hks k hk)]
  have hr : riskKws.any (fun k => containsSub k tl) = false :=
    hmk _ (fun kw hkw => by
      simp only [tagKeywords, List.mem_append]
      exact Or.inl (Or.inl hkw))
  have hd : dataKws.any (fun k => containsSub k tl) = false :=
    hmk _ (fun kw hkw => by
      simp only [tagKeywords, List.mem_append]
      exact Or.inl (Or.inr hkw))
  have ho : oblKws.any (fun k => containsSub k tl) = false :=
    hmk _ (fun kw hkw => by
      simp only [tagKeywords, List.mem_append]
      exact Or.inr hkw)
  simp [tagType, hr, hd, ho]

/-- When no tagging keyword occurs in the (lowercased) text, every
extracted clause is tagged "general". -/
theorem clauseExtraction_types (text : List Char) (sections : List (List Char))
    (h : ∀ kw ∈ tagKeywords, containsSub kw (lowerL text) = false) :
    ∀ cl ∈ clauseExtraction text sections, cl.type = chars "general" := by
  intro cl hcl
  simp only [clauseExtraction, List.mem_filterMap] at hcl
  obtain ⟨sentence, hsmem, hf⟩ := hcl
  have hsmem' : sentence ∈ splitSeq (chars ". ") text :=
    List.mem_of_mem_take hsmem
  by_cases hlen : (stripL sentence).length < 20
  · rw [if_pos hlen] at hf
    cases hf
  · rw [if_neg hlen] at hf
    have hcl' := (Option.some.injEq _ _).mp hf
    have htype : cl.type = tagType (lowerL sentence) := by
      rw [← hcl']
    rw [htype]
    exact tagType_general _ (fun kw hkw =>
      containsSub_sentence kw sentence text hsmem' (h kw hkw))

/-- On all-general clauses the risk-analysis stage returns empty
finding lists and overall risk Low. -/
theorem riskAnalysis_all_general (clauses : List Clause)
    (h : ∀ cl ∈ clauses, cl.type = chars "general") :
    riskAnalysis clauses = ⟨[], [], [], RiskLevel.low⟩ := by
  have ho : clauses.filterMap oblOfClause = [] := by
    rw [List.filterMap_eq_nil_iff]
    intro cl hcl
    rw [oblOfClause, if_neg]
    rw [h cl hcl]
    decide
  have hd : clauses.filterMap rightsOfClause = [] := by
    rw [List.filterMap_eq_nil_iff]
    intro cl hcl
    rw [rightsOfClause, if_neg]
    rw [h cl hcl]
    decide
  have hr : clauses.filterMap redFlagOfClause = [] := by
    rw [List.filterMap_eq_nil_iff]
    intro cl hcl
    rw [redFlagOfClause, if_neg]
    rw [h cl hcl]
    decide
  simp [riskAnalysis, ho, hd, hr]

/-- Every red flag built by the rule-based risk analysis has severity
High. -/
theorem riskAnalysis_redFlags_severity (clauses : List Clause) :
    ((riskAnalysis clauses).redFlags).all
      (fun rf => rf.severity == RiskLevel.high) = true := by
  simp only [riskAnalysis, List.all_eq_true]
  intro rf hrf
  simp only [List.mem_filterMap] at hrf
  obtain ⟨cl, _, hf⟩ := hrf
  rw [redFlagOfClause] at hf
  split at hf
  · cases hf
    rfl
  · cases hf

/-- The excerpt of the rule-based path is at most 203 characters. -/
theorem excerpt_length_le (t : List Char) : (excerpt t).length ≤ 203 := by
  have h3 : (chars "...").length = 3 := rfl
  rw [excerpt]
  split <;> simp [List.length_take, h3] <;> omega

/-- The excerpt of the tool path is at most 200 characters. -/
theorem createItemClause_length_le (cl : Clause) :
    (createItemClause cl).length ≤ 200 := by
  simp [createItemClause, List.length_take]

-- ### Claim theorems

/-- C1: for every input text (and every timing/datetime oracle and
incoming step log), every entry of the `red_flags` list of the
`AnalysisResult` returned by `analyze_document` has severity High.
Since `RiskLevel` has no Critical member, this is exactly membership in
the spec's {High, Critical} set, and in particular the severity is
never Low or Medium. -/
theorem c1_red_flags_always_high (dur : Nat → List Char)
    (totalStr now : List Char) (st : List ProcessingStep) (text : List Char) :
    ((analyzeDocument dur totalStr now st text).1.red_flags).all
      (fun rf => rf.severity == RiskLevel.high) = true :=
  riskAnalysis_redFlags_severity _

/-- C3: for every input text and section list, the clause-extraction
stage emits at most 20 clauses — on the tool path (`_extract_clauses`,
cap 20) and on the rule-based path (`_clause_extraction`, cap 15 ≤ 20)
alike, regardless of how many sentences the text contains. -/
theorem c3_clause_cap (text : List Char) (sections : List (List Char)) :
    (extractClauses text sections).length ≤ 20 ∧
    (clauseExtraction text sections).length ≤ 20 := by
  constructor
  · simpa [extractClauses] using
      List.length_take_le 20 ((splitSeq (chars ". ") text).map _)
  · calc (clauseExtraction text sections).length
        ≤ ((splitSeq (chars ". ") text).take 15).length := by
          simpa [clauseExtraction] using
            List.length_filterMap_le _ ((splitSeq (chars ". ") text).take 15)
      _ ≤ 15 := List.length_take_le _ _
      _ ≤ 20 := by omega

/-- C5: the document classifier agrees, on every text, with the
spec-mirror first-match scan over the ordered groups ToS, Privacy,
Employment, License (else Unknown); and a concrete text containing both
a terms-of-service keyword and a privacy-policy keyword is classified
Terms of Service. -/
theorem c5_classifier_priority :
    (∀ text : List Char, (legalClassification text).1 = classifyBySpec text) ∧
    (legalClassification
      (chars "This Privacy Policy incorporates our Terms of Service rules")).1 =
      DocumentType.termsOfService := by
  constructor
  · intro text
    simp only [legalClassification, classifyBySpec, docGroups, List.find?]
    cases h1 : tosKws.any (fun k => containsSub k (lowerL text)) <;>
      cases h2 : privacyKws.any (fun k => containsSub k (lowerL text)) <;>
        cases h3 : employmentKws.any (fun k => containsSub k (lowerL text)) <;>
          cases h4 : licenseKws.any (fun k => containsSub k (lowerL text)) <;>
            simp [h1, h2, h3, h4]
  · decide

/-- C10: in `RiskAnalysisTool`, the overall risk is High exactly when
at least one red flag exists and Low exactly when none does; the Medium
branch of `_calculate_overall_risk` is unreachable (its guard
`len(red_flags) > 0` is only evaluated when the list is empty), so the
tool path never reports overall risk Medium — regardless of the number
of obligations or rights findings, which the function does not see. -/
theorem c10_medium_branch_unreachable :
    (∀ redFlags : List RedFlag,
      (calculateOverallRisk redFlags = RiskLevel.high ↔ redFlags ≠ []) ∧
      (calculateOverallRisk redFlags = RiskLevel.low ↔ redFlags = []) ∧
      calculateOverallRisk redFlags ≠ RiskLevel.medium) ∧
    (∀ clauses : List Clause,
      (portiaRiskAnalysisRun clauses).overallRisk ≠ RiskLevel.medium) := by
  have hmain : ∀ redFlags : List RedFlag,
      (calculateOverallRisk redFlags = RiskLevel.high ↔ redFlags ≠ []) ∧
      (calculateOverallRisk redFlags = RiskLevel.low ↔ redFlags = []) ∧
      calculateOverallRisk redFlags ≠ RiskLevel.medium := by
    intro l
    cases l <;> simp [calculateOverallRisk]
  refine ⟨hmain, fun clauses => ?_⟩
  simp only [portiaRiskAnalysisRun]
  exact (hmain _).2.2

/-- C7 (amended): as the counterexample below shows, the rule-based
risk stage appends "..." after the 200-character cut, so its stored
clause excerpts are bounded by 203 characters, not 200; the tool path
(`_create_item`) takes a plain 200-character prefix.  This theorem
proves both bounds for every finding of either path. -/
theorem c7_amended_excerpt_bounds (clauses : List Clause) :
    ((riskAnalysis clauses).obligations.all
      (fun f => decide (f.clause.length ≤ 203)) = true) ∧
    ((riskAnalysis clauses).rights.all
      (fun f => decide (f.clause.length ≤ 203)) = true) ∧
    ((riskAnalysis clauses).redFlags.all
      (fun f => decide (f.clause.length ≤ 203)) = true) ∧
    ((portiaRiskAnalysisRun clauses).obligations.all
      (fun f => decide (f.clause.length ≤ 200)) = true) ∧
    ((portiaRiskAnalysisRun clauses).rights.all
      (fun f => decide (f.clause.length ≤ 200)) = true) ∧
    ((portiaRiskAnalysisRun clauses).redFlags.all
      (fun f => decide (f.clause.length ≤ 200)) = true) := by
  refine ⟨?_, ?_, ?_, ?_, ?_, ?_⟩
  · simp only [riskAnalysis, List.all_eq_true, decide_eq_true_eq]
    intro f hf
    obtain ⟨cl, _, hfe⟩ := List.mem_filterMap.mp hf
    rw [oblOfClause] at hfe
    split at hfe
    · injection hfe with h
      subst h
      exact excerpt_length_le _
    · cases hfe
  · simp only [riskAnalysis, List.all_eq_true, decide_eq_true_eq]
    intro f hf
    obtain ⟨cl, _, hfe⟩ := List.mem_filterMap.mp hf
    rw [rightsOfClause] at hfe
    split at hfe
    · injection hfe with h
      subst h
      exact excerpt_length_le _
    · cases hfe
  · simp only [riskAnalysis, List.all_eq_true, decide_eq_true_eq]
    intro f hf
    obtain ⟨cl, _, hfe⟩ := List.mem_filterMap.mp hf
    rw [redFlagOfClause] at hfe
    split at hfe
    · injection hfe with h
      subst h
      exact excerpt_length_le _
    · cases hfe
  · simp only [portiaRiskAnalysisRun, List.all_eq_true, decide_eq_true_eq]
    intro f hf
    obtain ⟨cl, _, hfe⟩ := List.mem_filterMap.mp hf
    rw [pOblOfClause] at hfe
    split at hfe
    · injection hfe with h
      subst h
      exact createItemClause_length_le _
    · cases hfe
  · simp only [portiaRiskAnalysisRun, List.all_eq_true, decide_eq_true_eq]
    intro f hf
    obtain ⟨cl, _, hfe⟩ := List.mem_filterMap.mp hf
    rw [pRightsOfClause] at hfe
    split at hfe
    · injection hfe with h
      subst h
      exact createItemClause_length_le _
    · cases hfe
  · simp only [portiaRiskAnalysisRun, List.all_eq_true, decide_eq_true_eq]
    intro f hf
    obtain ⟨cl, _, hfe⟩ := List.mem_filterMap.mp hf
    rw [pRedFlagOfClause] at hfe
    split at hfe
    · injection hfe with h
      subst h
      exact createItemClause_length_le _
    · cases hfe

set_option maxRecDepth 4000 in
/-- C7 counterexample: a risk clause of 201 characters yields a red
flag whose stored excerpt has 203 characters (200-character prefix plus
the appended "..."), so the excerpt is not bounded by 200 as the claim
states. -/
theorem c7_counterexample :
    ((riskAnalysis [longRiskClause]).redFlags.map
      (fun rf => rf.clause.length)) = [203] ∧
    ((riskAnalysis [longRiskClause]).redFlags.all
      (fun f => decide (f.clause.length ≤ 200))) = false := by
  constructor <;> decide

/-- C8 (amended): on empty input the rule-based segmenter
(`_clause_extraction`, which skips sentences shorter than 20
characters) returns the empty clause list, while the tool segmenter
(`_extract_clauses`, which has no length filter) returns exactly one
clause, because Python's `"".split(". ")` is `[""]`; neither raises. -/
theorem c8_amended_empty_input (sections : List (List Char)) :
    clauseExtraction [] sections = [] ∧
    (extractClauses [] sections).length = 1 := by
  have h0 : splitSeq (chars ". ") [] = [[]] := rfl
  constructor
  · simp [clauseExtraction, h0, stripL, List.filterMap]
  · simp [extractClauses, h0]

/-- C8 counterexample: the tool-path segmenter applied to the empty
text returns a singleton general clause with empty text, not the empty
sequence the claim states. -/
theorem c8_counterexample :
    extractClauses [] genericSections ≠ [] ∧
    extractClauses [] genericSections =
      [⟨uuidPlaceholder, [], chars "General Terms", chars "general"⟩] := by
  constructor <;> decide

/-- C9 (amended): the pipeline state is not request-local.  The
module-level singleton's `processing_steps` list is carried across
invocations and `analyze_document` never clears it: a run entered with
log `st` leaves `st ++` its own six steps, and its report exposes
`st ++` its own first five steps (the `AIAssemblyLine` snapshot is
taken before the sixth step is appended).  A successive invocation
therefore extends, and reports, its predecessor's step sequence. -/
theorem c9_amended_steps_persist (dur : Nat → List Char)
    (totalStr now : List Char) (st : List ProcessingStep) (text : List Char) :
    (analyzeDocument dur totalStr now st text).2 = st ++ runSteps dur ∧
    (analyzeDocument dur totalStr now st text).1.ai_assembly_line.processing_steps
      = st ++ (runSteps dur).take 5 := by
  constructor <;>
    simp [analyzeDocument, runSteps, List.append_assoc, List.take]

/-- C9 counterexample: running `analyze_document` twice in succession
on the singleton, the second report's processing-step log has 11
entries (the first run's six steps plus its own first five) instead of
the 5 a request-local log would have, and the first run's final log is
a prefix of the second run's — the second analysis observes and
extends the first analysis's step sequence. -/
theorem c9_counterexample :
    (c9SecondRun.1.ai_assembly_line.processing_steps).length = 11 ∧
    (c9FirstRun.1.ai_assembly_line.processing_steps).length = 5 ∧
    c9SecondRun.2.length = 12 ∧
    (c9SecondRun.2.take 6).map (fun s => s.agent) =
      c9FirstRun.2.map (fun s => s.agent) := by
  refine ⟨?_, ?_, ?_, ?_⟩ <;> decide

/-- C4 (amended): for every input whose *normalized* lowercased text
contains no keyword from the risk, data-usage or obligation tagging
sets nor any document-type keyword, `analyze_document` returns empty
obligations, rights and red-flag collections and overall risk Low (the
overall risk surfaces as `summary.riskLevel`).  The claim amended only
by evaluating the keyword condition after whitespace normalization: as
the counterexample shows, collapsing whitespace can create the
two-word keyword "personal data" that the raw text did not contain. -/
theorem c4_amended_no_keywords_low (dur : Nat → List Char)
    (totalStr now : List Char) (st : List ProcessingStep) (text : List Char)
    (h : allKeywords.all
      (fun kw => !(containsSub kw (lowerL (documentIngestion text).1))) = true) :
    (analyzeDocument dur totalStr now st text).1.obligations = [] ∧
    (analyzeDocument dur totalStr now st text).1.rights_and_data_usage = [] ∧
    (analyzeDocument dur totalStr now st text).1.red_flags = [] ∧
    (analyzeDocument dur totalStr now st text).1.summary.riskLevel =
      RiskLevel.low := by
  have hkw : ∀ kw ∈ tagKeywords,
      containsSub kw (lowerL (documentIngestion text).1) = false := by
    simp only [List.all_eq_true, Bool.not_eq_true'] at h
    intro kw hkwmem
    exact h kw (List.mem_append_left _ hkwmem)
  have hra := riskAnalysis_all_general _
    (clauseExtraction_types (documentIngestion text).1
      (legalClassification (documentIngestion text).1).2 hkw)
  refine ⟨?_, ?_, ?_, ?_⟩ <;>
    simp [analyzeDocument, hra, plainEnglishTranslation]

/-- C4 counterexample: the raw text
"we use your personal  data for advertising here" (two spaces inside
"personal  data") contains, case-insensitively, no keyword of any
group — yet `analyze_document` returns a non-empty
`rights_and_data_usage` list, because whitespace normalization turns
the text into one that contains the data-usage keyword
"personal data".  This refutes the claim as stated on the raw input
text. -/
theorem c4_counterexample :
    (allKeywords.all (fun kw => !(containsSub kw (lowerL c4Text)))) = true ∧
    ((analyzeDocument d0 (chars "0.0s") (chars "T") []
        c4Text).1.rights_and_data_usage).length = 1 := by
  constructor <;> decide

/-- C4 witness: the amended theorem applied to the concrete
keyword-free text `c4WitnessText`. -/
theorem c4_amended_witness :
    (analyzeDocument d0 (chars "0.0s") (chars "T") []
      c4WitnessText).1.obligations = [] ∧
    (analyzeDocument d0 (chars "0.0s") (chars "T") []
      c4WitnessText).1.rights_and_data_usage = [] ∧
    (analyzeDocument d0 (chars "0.0s") (chars "T") []
      c4WitnessText).1.red_flags = [] ∧
    (analyzeDocument d0 (chars "0.0s") (chars "T") []
      c4WitnessText).1.summary.riskLevel = RiskLevel.low :=
  c4_amended_no_keywords_low d0 (chars "0.0s") (chars "T") [] c4WitnessText
    (by decide)

/-- C2: whenever the external provider call raises (any exception,
including a missing token, network failure or timeout) or its response
contains no parsable JSON object (no brace pair, or `json.loads`
rejects the extracted segment), `free_legal_analysis` returns exactly
the report of the deterministic second-tier generator
`generate_demo_analysis` — which, by its definition, consults no
external service — and, since `freeLegalAnalysis` is a total function
into `PactReport`, no provider error ever propagates to the caller. -/
theorem c2_fallback_on_provider_failure (jsonValid : List Char → Bool)
    (restructure : List Char → Option PactReport)
    (text ts : List Char) (rand : Nat) :
    (∀ e, freeLegalAnalysis jsonValid restructure (Except.error e) text ts rand =
      generateDemoAnalysis text ts rand) ∧
    (∀ r, extractJsonSegment r = none →
      freeLegalAnalysis jsonValid restructure (Except.ok r) text ts rand =
      generateDemoAnalysis text ts rand) ∧
    (∀ r js, extractJsonSegment r = some js → jsonValid js = false →
      freeLegalAnalysis jsonValid restructure (Except.ok r) text ts rand =
      generateDemoAnalysis text ts rand) := by
  refine ⟨fun e => rfl, fun r hr => ?_, fun r js hjs hval => ?_⟩
  · simp [freeLegalAnalysis, hr]
  · simp [freeLegalAnalysis, hjs, hval]

/-- C2 witness: a concrete raised provider call and a concrete
JSON-free response both yield the demo-generator report. -/
theorem c2_fallback_witness :
    freeLegalAnalysis (fun _ => false) (fun _ => none)
      (Except.error (chars "timeout")) (chars "a privacy text")
      (chars "2025-01-01T00:00:00") 0 =
      generateDemoAnalysis (chars "a privacy text")
        (chars "2025-01-01T00:00:00") 0 ∧
    freeLegalAnalysis (fun _ => false) (fun _ => none)
      (Except.ok (chars "no json object here")) (chars "a privacy text")
      (chars "2025-01-01T00:00:00") 0 =
      generateDemoAnalysis (chars "a privacy text")
        (chars "2025-01-01T00:00:00") 0 :=
  ⟨(c2_fallback_on_provider_failure (fun _ => false) (fun _ => none)
      (chars "a privacy text") (chars "2025-01-01T00:00:00") 0).1 _,
   (c2_fallback_on_provider_failure (fun _ => false) (fun _ => none)
      (chars "a privacy text") (chars "2025-01-01T00:00:00") 0).2.1 _
      (by decide)⟩

/-- C6 (amended): on the tool path, `total_processing_time` is the sum
of the parsed per-step durations rounded to one decimal place (the
`%.1f` formatting), and that rounded value can differ from the exact
sum by up to 0.05 — a formatting granularity, not a floating-point
tolerance. -/
theorem c6_amended_rounded_total (su : Summary) (obl : List Obligation)
    (rts : List RightAndDataUsage) (rfs : List RedFlag)
    (steps : List ProcessingStep) (q : ℚ)
    (hq : sumDurations steps = some q) :
    (reportGenerationRun su obl rts rfs steps).map
      (fun r => r.final_report.ai_assembly_line.total_processing_time) =
      Except.ok (fmtTenth q ++ chars "s") ∧
    |((Int.floor (q * 10 + 1/2) : ℚ)) / 10 - q| ≤ 1 / 20 := by
  constructor
  · simp [reportGenerationRun, hq, Except.map]
  · have h1 : ((Int.floor (q * 10 + 1/2) : ℚ)) ≤ q * 10 + 1/2 :=
      Int.floor_le _
    have h2 : q * 10 + 1/2 < (Int.floor (q * 10 + 1/2) : ℚ) + 1 :=
      Int.lt_floor_add_one _
    rw [abs_le]
    constructor <;> linarith

/-- C6 witness: the amended theorem applied to a single step of
duration "2s" (whose parsed sum is the rational 2). -/
theorem c6_amended_witness :
    (reportGenerationRun smallSummary [] [] [] oneStep2s).map
      (fun r => r.final_report.ai_assembly_line.total_processing_time) =
      Except.ok (fmtTenth 2 ++ chars "s") ∧
    |((Int.floor ((2 : ℚ) * 10 + 1/2) : ℚ)) / 10 - 2| ≤ 1 / 20 :=
  c6_amended_rounded_total smallSummary [] [] [] oneStep2s 2 (by
    have h1 : stripS (chars "2s") = chars "2" := by decide
    have h2 : splitSeq (chars ".") (chars "2") = [chars "2"] := by decide
    have h3 : digitsToNat? (chars "2") = some 2 := by decide
    have hp : parseDec (stripS (chars "2s")) = some ((2 : ℕ) : ℚ) := by
      rw [h1]
      simp [parseDec, h2, h3]
    simp [sumDurations, oneStep2s, hp])

/-- C6 counterexample: two steps of duration "0.03s" have duration sum
0.06, but the assembled report's `total_processing_time` is the
formatted string "0.1s"; parsed back it is 1/10, which differs from
the exact sum 3/50 by 1/25 = 0.04 — far beyond floating-point
tolerance (here witnessed against 10⁻⁶), refuting the claimed equality
of `total_processing_time` with the duration sum. -/
theorem c6_counterexample :
    sumDurations twoSteps003 = some (3/50) ∧
    (reportGenerationRun smallSummary [] [] [] twoSteps003).map
      (fun r => parseDec
        (stripS r.final_report.ai_assembly_line.total_processing_time)) =
      Except.ok (some (1/10)) ∧
    ¬((1/10 : ℚ) - 3/50 = 0) ∧
    ¬(|(1/10 : ℚ) - 3/50| ≤ 1/1000000) := by
  have e1 : stripS (chars "0.03s") = chars "0.03" := by decide
  have e2 : splitSeq (chars ".") (chars "0.03") = [chars "0", chars "03"] := by
    decide
  have e3 : digitsToNat? (chars "0") = some 0 := by decide
  have e4 : digitsToNat? (chars "03") = some 3 := by decide
  have e5 : (chars "0" : List Char) ≠ [] := by decide
  have e6 : (chars "03" : List Char) ≠ [] := by decide
  have e7 : (chars "03").length = 2 := by decide
  have hp : parseDec (stripS (chars "0.03s")) = some (3/100 : ℚ) := by
    rw [e1]
    norm_num [parseDec, e2, e3, e4, e5, e6, e7]
  have hsum : sumDurations twoSteps003 = some (3/50 : ℚ) := by
    simp only [twoSteps003, sumDurations, hp]
    norm_num
  have hfloor : Int.floor ((3/50 : ℚ) * 10 + 1/2) = 1 := by
    apply Int.floor_eq_iff.mpr
    constructor <;> norm_num
  have hfmt : fmtTenth (3/50 : ℚ) = chars "0.1" := by
    simp only [fmtTenth, hfloor]
    decide
  have hstrip : stripS (chars "0.1" ++ chars "s") = chars "0.1" := by decide
  have f2 : splitSeq (chars ".") (chars "0.1") = [chars "0", chars "1"] := by
    decide
  have f4 : digitsToNat? (chars "1") = some 1 := by decide
  have f6 : (chars "1" : List Char) ≠ [] := by decide
  have f7 : (chars "1").length = 1 := by decide
  have hback : parseDec (chars "0.1") = some (1/10 : ℚ) := by
    norm_num [parseDec, f2, e3, f4, e5, f6, f7]
  refine ⟨hsum, ?_, by norm_num, ?_⟩
  · simp only [reportGenerationRun, hsum, Except.map, hfmt, hstrip, hback]
  · have habs : |(1/10 : ℚ) - 3/50| = 1/25 := by
      rw [abs_of_nonneg (by norm_num)]
      norm_num
    rw [habs]
    norm_num
